import Mathlib

/-!
Verification of the Pixoo REST device registry, configuration loader and
Time Gate dispatch layer (pixoo_rest_devices.py, pixoo_rest_timegate.py,
pixoo_rest_entrypoint.py), shallowly embedded in Lean.

Machine integers are modelled as Int (Python integers are unbounded, so no
overflow is involved); JSON-decoded Python values are modelled by the Json
inductive below; exceptions are modelled with Except.
-/

deriving instance DecidableEq for Except

/-- Python str.strip whitespace test (the ASCII whitespace characters). -/
def pyIsSpace (c : Char) : Bool :=
  c = ' ' || c = '\t' || c = '\n' || c = '\r' || c = '\x0b' || c = '\x0c'

/-- Python str.strip on a character list: drop whitespace from both ends. -/
def pyStripChars (cs : List Char) : List Char :=
  ((cs.dropWhile pyIsSpace).reverse.dropWhile pyIsSpace).reverse

/-- Python str.strip. -/
def pyStrip (s : String) : String :=
  ⟨pyStripChars s.data⟩

/-- Python str.lower on one character (ASCII fragment). -/
def pyLowerChar (c : Char) : Char :=
  if 65 ≤ c.toNat && c.toNat ≤ 90 then Char.ofNat (c.toNat + 32) else c

/-- Python str.lower (ASCII fragment). -/
def pyLower (s : String) : String :=
  ⟨s.data.map pyLowerChar⟩

/-- Python str.replace for a one-character pattern and replacement (the only
shape the source uses: replacing hyphen or space by underscore). -/
def pyReplaceChar (a b : Char) (s : String) : String :=
  ⟨s.data.map (fun c => if c = a then b else c)⟩

/-- Decimal digit value of a character, if it is a digit. -/
def decDigit? (c : Char) : Option Nat :=
  if 48 ≤ c.toNat && c.toNat ≤ 57 then some (c.toNat - 48) else none

/-- Value of a nonempty all-digit character list, none otherwise. -/
def digitsVal (cs : List Char) : Option Nat :=
  if cs.isEmpty then none
  else
    cs.foldl
      (fun acc c =>
        match acc, decDigit? c with
        | some a, some d => some (10 * a + d)
        | _, _ => none)
      (some 0)

/-- Python int(str): strip surrounding whitespace, allow one leading sign,
then a nonempty run of decimal digits; anything else raises ValueError
(modelled as none). -/
def parsePyInt (s : String) : Option Int :=
  match pyStripChars s.data with
  | '-' :: rest => (digitsVal rest).map (fun m => -(m : Int))
  | '+' :: rest => (digitsVal rest).map (fun m => (m : Int))
  | t => (digitsVal t).map (fun m => (m : Int))

/-- A JSON-decoded Python value, as produced by json.loads: None, bool, int,
str, list, dict.  (JSON floats do not occur in the configurations the claims
quantify over and are not modelled; Python str/int semantics below are the
ASCII fragment.) -/
inductive Json where
  | null
  | bool (b : Bool)
  | int (n : Int)
  | str (s : String)
  | arr (elems : List Json)
  | obj (fields : List (String × Json))

/-- Python truthiness of a JSON-decoded value. -/
def Json.truthy : Json → Bool
  | .null => false
  | .bool b => b
  | .int n => n != 0
  | .str s => s != ""
  | .arr xs => !xs.isEmpty
  | .obj kvs => !kvs.isEmpty

/-- Whether a value is a JSON array (Python list). -/
def Json.isArr : Json → Bool
  | .arr _ => true
  | _ => false

mutual
/-- Python repr of a JSON-decoded value (used by str on containers). -/
def pyRepr : Json → String
  | .null => "None"
  | .bool true => "True"
  | .bool false => "False"
  | .int n => n.repr
  | .str s => "\x27" ++ s ++ "\x27"
  | .arr xs => "[" ++ pyReprElems xs ++ "]"
  | .obj kvs => "\x7b" ++ pyReprFields kvs ++ "\x7d"

/-- Comma-separated reprs of list elements. -/
def pyReprElems : List Json → String
  | [] => ""
  | [x] => pyRepr x
  | x :: xs => pyRepr x ++ ", " ++ pyReprElems xs

/-- Comma-separated reprs of dict entries. -/
def pyReprFields : List (String × Json) → String
  | [] => ""
  | [(k, v)] => "\x27" ++ k ++ "\x27: " ++ pyRepr v
  | (k, v) :: kvs => "\x27" ++ k ++ "\x27: " ++ pyRepr v ++ ", " ++ pyReprFields kvs
end

/-- Python str() of a JSON-decoded value. -/
def pyStr : Json → String
  | .null => "None"
  | .bool true => "True"
  | .bool false => "False"
  | .int n => n.repr
  | .str s => s
  | .arr xs => pyRepr (.arr xs)
  | .obj kvs => pyRepr (.obj kvs)

/-- Python exceptions that the embedded code can raise. -/
inductive PyError where
  | typeError
  | valueError
  | attributeError
deriving DecidableEq

/-- Python int(value) on a JSON-decoded value: TypeError on None/list/dict,
bool converts to 0/1, strings parse as an optionally signed decimal numeral
(surrounding whitespace allowed) and raise ValueError otherwise. -/
def int_of : Json → Except PyError Int
  | .null => .error .typeError
  | .bool b => .ok (if b then 1 else 0)
  | .int n => .ok n
  | .str s =>
    match parsePyInt s with
    | some n => .ok n
    | none => .error .valueError
  | .arr _ => .error .typeError
  | .obj _ => .error .typeError

/-- dict.get(k): the value stored under k, or None when the key is absent. -/
def Json.get (fields : List (String × Json)) (k : String) : Json :=
  match fields.lookup k with
  | some v => v
  | none => .null

/-- The process-wide scalar configuration defaults (pixoo_rest.core.config
settings consumed by the loader). -/
structure Settings where
  pixoo_host : String
  pixoo_screen_size : Int
  pixoo_debug : Bool
  pixoo_test_connection_retries : Int
deriving DecidableEq

/-- A live Pixoo session handle (the Pixoo(host, size, debug) object attached
by the startup prober). -/
structure PixooSession where
  host : String
  size : Int
  debug : Bool
deriving DecidableEq

/-- DeviceContext from pixoo_rest_devices.py. -/
structure DeviceContext where
  key : String
  host : String
  device_type : String
  screen_size : Int
  debug : Bool
  connection_retries : Int
  pixoo : Option PixooSession := none
  name : Option String := none
deriving DecidableEq

/-- normalize_device_type from pixoo_rest_devices.py, on its annotated domain
str-or-None: (value or "pixoo").strip().lower(), hyphen/space to underscore,
then the three-way classification. -/
def normalize_device_type (value : Option String) : String :=
  let base :=
    match value with
    | some s => if s = "" then "pixoo" else s
    | none => "pixoo"
  let normalized := pyReplaceChar ' ' '_' (pyReplaceChar '-' '_' (pyLower (pyStrip base)))
  if normalized = "timegate" || normalized = "time_gate" then "time_gate"
  else if normalized = "auto" then "auto"
  else "pixoo"

/-- normalize_device_type as invoked by the loader on a raw JSON value:
(value or "pixoo") keeps a truthy value, and .strip() on a kept non-string
raises AttributeError. -/
def normalize_device_type_json (value : Json) : Except PyError String :=
  if value.truthy then
    match value with
    | .str s => .ok (normalize_device_type (some s))
    | _ => .error .attributeError
  else
    .ok (normalize_device_type none)

/-- coerce_int from pixoo_rest_devices.py: int(value), with TypeError and
ValueError caught and replaced by the default. -/
def coerce_int (value : Json) (default : Int) : Int :=
  match int_of value with
  | .ok n => n
  | .error _ => default

/-- coerce_bool from pixoo_rest_devices.py: None keeps the default, a bool
passes through, a string is tested against the truthy literals, anything else
is bool(value). -/
def coerce_bool (value : Json) (default : Bool) : Bool :=
  match value with
  | .null => default
  | .bool b => b
  | .str s => ["1", "true", "yes", "y", "on"].contains (pyLower (pyStrip s))
  | v => v.truthy

/-- The suffixed candidate f-string of ensure_unique_key. -/
def candKey (key : String) (suffix : Nat) : String :=
  key ++ "-" ++ Nat.repr suffix

/-- The while-loop of ensure_unique_key: advance the suffix while the
candidate is taken.  The fuel only bounds the loop; lemmas below show that
with fuel one beyond the size of the set the loop always stops at a free
candidate, so the bounded recursion computes exactly the source loop. -/
def findSuffix (key : String) (existing : List String) : Nat → Nat → Nat
  | suffix, 0 => suffix
  | suffix, fuel + 1 =>
    if candKey key suffix ∈ existing then findSuffix key existing (suffix + 1) fuel
    else suffix

/-- ensure_unique_key from pixoo_rest_devices.py.  The Python set of used
keys is modelled as a list consulted only through membership; the function
returns the chosen key together with the grown set. -/
def ensure_unique_key (key : String) (existing : List String) : String × List String :=
  if key ∈ existing then
    let suffix := findSuffix key existing 2 (existing.length + 1)
    let unique := candKey key suffix
    (unique, unique :: existing)
  else
    (key, key :: existing)

/-- host extraction for one raw entry: str(raw.get("host") or "").strip(). -/
def entryHost (fields : List (String × Json)) : String :=
  pyStrip (pyStr (if (Json.get fields "host").truthy then Json.get fields "host" else .str ""))

/-- name extraction: str(raw.get("name") or "").strip() or None. -/
def entryName (fields : List (String × Json)) : Option String :=
  let s := pyStrip (pyStr (if (Json.get fields "name").truthy then Json.get fields "name" else .str ""))
  if s = "" then none else some s

/-- key extraction before dedup: str(raw.get("key") or name or host).strip(),
falling back to host when the strip empties it. -/
def entryKey (fields : List (String × Json)) : String :=
  let base :=
    if (Json.get fields "key").truthy then pyStr (Json.get fields "key")
    else
      match entryName fields with
      | some s => s
      | none => entryHost fields
  let k := pyStrip base
  if k = "" then entryHost fields else k

/-- The loop body of load_devices_from_list: walk the raw entries threading
the set of used keys, skipping non-dict entries and entries with an empty
host, and propagating any Python exception (a truthy non-string device_type
raises AttributeError inside normalize_device_type). -/
def load_devices_loop (st : Settings) : List Json → List String → Except PyError (List DeviceContext)
  | [], _ => .ok []
  | raw :: rest, used =>
    match raw with
    | .obj fields =>
      let host := entryHost fields
      if host = "" then load_devices_loop st rest used
      else
        let name := entryName fields
        match ensure_unique_key (entryKey fields) used with
        | (key, used') =>
          match normalize_device_type_json (Json.get fields "device_type") with
          | .error e => .error e
          | .ok device_type =>
            match load_devices_loop st rest used' with
            | .error e => .error e
            | .ok devs =>
              .ok ({ key := key
                     host := host
                     device_type := device_type
                     screen_size := coerce_int (Json.get fields "screen_size") st.pixoo_screen_size
                     debug := coerce_bool (Json.get fields "debug") st.pixoo_debug
                     connection_retries :=
                       coerce_int (Json.get fields "connection_retries") st.pixoo_test_connection_retries
                     name := name } :: devs)
    | _ => load_devices_loop st rest used

/-- load_devices_from_list from pixoo_rest_devices.py. -/
def load_devices_from_list (st : Settings) (raw_devices : List Json) : Except PyError (List DeviceContext) :=
  load_devices_loop st raw_devices []

/-- The single implicit device built from the scalar defaults (the
single-host fallback of load_devices_from_env). -/
def fallback_device (st : Settings) (env_device_type : Option String) : DeviceContext :=
  { key := st.pixoo_host
    host := st.pixoo_host
    device_type := normalize_device_type env_device_type
    screen_size := st.pixoo_screen_size
    debug := st.pixoo_debug
    connection_retries := st.pixoo_test_connection_retries }

/-- Errors escaping load_devices_from_env: the two RuntimeError sites of the
source, or an uncaught Python exception from entry processing. -/
inductive LoadError where
  | runtime (msg : String)
  | py (e : PyError)
deriving DecidableEq

/-- load_devices_from_env from pixoo_rest_devices.py.  The environment value
is presented post-parse: none models an absent or blank (falsy after strip)
PIXOO_DEVICES_JSON, some none a present value on which json.loads raises
JSONDecodeError, and some (some j) a present value parsing to j. -/
def load_devices_from_env (parsed : Option (Option Json)) (st : Settings)
    (env_device_type : Option String) : Except LoadError (List DeviceContext) :=
  match parsed with
  | some none => .error (.runtime "PIXOO_DEVICES_JSON is not valid JSON")
  | some (some j) =>
    match j with
    | .arr raw_devices =>
      match load_devices_from_list st raw_devices with
      | .error e => .error (.py e)
      | .ok devices =>
        if devices.isEmpty then .ok [fallback_device st env_device_type]
        else .ok devices
    | _ => .error (.runtime "PIXOO_DEVICES_JSON must be a JSON array")
  | none => .ok [fallback_device st env_device_type]

/-- DeviceRegistry from pixoo_rest_devices.py: the ordered device list; the
two lookup dicts and the default are derived views defined below. -/
structure DeviceRegistry where
  devices : List DeviceContext
deriving DecidableEq

/-- The dict comprehension keyed by device.key.lower(): later entries
overwrite earlier ones, so lookup finds the last matching device. -/
def DeviceRegistry.byKey (reg : DeviceRegistry) (k : String) : Option DeviceContext :=
  reg.devices.reverse.find? (fun d => pyLower d.key == k)

/-- The dict comprehension keyed by device.host, last entry winning. -/
def DeviceRegistry.byHost (reg : DeviceRegistry) (h : String) : Option DeviceContext :=
  reg.devices.reverse.find? (fun d => d.host == h)

/-- self.default: the first device, none when the list is empty. -/
def DeviceRegistry.defaultDevice (reg : DeviceRegistry) : Option DeviceContext :=
  reg.devices.head?

/-- registry.keys(). -/
def DeviceRegistry.keysList (reg : DeviceRegistry) : List String :=
  reg.devices.map (fun d => d.key)

/-- Python truthiness of an optional string argument (absent or empty is
falsy). -/
def strTruthy : Option String → Bool
  | none => false
  | some s => s != ""

/-- DeviceRegistry.select: a truthy key is looked up lower-cased ignoring
host; else a truthy host is looked up exactly; else the default. -/
def DeviceRegistry.select (reg : DeviceRegistry) (device_key host : Option String) :
    Option DeviceContext :=
  if strTruthy device_key then reg.byKey (pyLower (device_key.getD ""))
  else if strTruthy host then reg.byHost (host.getD "")
  else reg.defaultDevice

/-- Python `a or b` on optional strings (used to merge a query parameter
with its header fallback). -/
def pyOrOptStr (a b : Option String) : Option String :=
  if strTruthy a then a else b

/-- An HTTPException surfaced to the caller. -/
structure HttpError where
  status : Nat
  detail : String
deriving DecidableEq

/-- The detail string of the 400 type-mismatch HTTPException (shared by the
Time Gate selector and get_pixoo_for_request). -/
def mismatch_detail (d : DeviceContext) : String :=
  "Device \x27" ++ d.key ++ "\x27 is configured as " ++ d.device_type ++ "."

/-- The detail string of the 404 device-not-found HTTPException. -/
def not_found_detail (reg : DeviceRegistry) : String :=
  let available := String.intercalate ", " reg.keysList
  "Device not found. Available devices: " ++ (if available = "" then "none" else available)

/-- _select_timegate_device from pixoo_rest_timegate.py: registry presence,
query-or-header merge, registry lookup, then the time_gate type gate.  An
uninitialized registry (DEVICE_REGISTRY is None) is the 503 path. -/
def select_timegate_device (reg : Option DeviceRegistry)
    (device host x_pixoo_device x_pixoo_host : Option String) :
    Except HttpError DeviceContext :=
  match reg with
  | none => .error ⟨503, "Device registry is not initialized"⟩
  | some registry =>
    let device_key := pyOrOptStr device x_pixoo_device
    let host_value := pyOrOptStr host x_pixoo_host
    match registry.select device_key host_value with
    | none => .error ⟨404, not_found_detail registry⟩
    | some selected =>
      if selected.device_type != "time_gate" then .error ⟨400, mismatch_detail selected⟩
      else .ok selected

/-- _resolve_device_selector from pixoo_rest_entrypoint.py: same resolution
but fed only the two query parameters (no header arguments exist). -/
def resolve_device_selector (reg : Option DeviceRegistry) (device host : Option String) :
    Except HttpError DeviceContext :=
  match reg with
  | none => .error ⟨503, "Device registry is not initialized"⟩
  | some registry =>
    match registry.select device host with
    | none => .error ⟨404, not_found_detail registry⟩
    | some selected => .ok selected

/-- get_pixoo_for_request from pixoo_rest_entrypoint.py: resolve by query
parameters only, then the pixoo type gate, then the session-present gate. -/
def get_pixoo_for_request (reg : Option DeviceRegistry) (device host : Option String) :
    Except HttpError PixooSession :=
  match resolve_device_selector reg device host with
  | .error e => .error e
  | .ok selected =>
    if selected.device_type != "pixoo" then .error ⟨400, mismatch_detail selected⟩
    else
      match selected.pixoo with
      | none => .error ⟨503, "Pixoo device not initialized"⟩
      | some p => .ok p

/-- _validate_lcd_array from pixoo_rest_timegate.py. -/
def validate_lcd_array (lcd_array : List Int) : Except HttpError (List Int) :=
  if lcd_array.length != 5 then .error ⟨422, "lcd_array must contain 5 items."⟩
  else if lcd_array.any (fun v => v != 0 && v != 1) then
    .error ⟨422, "lcd_array values must be 0 or 1."⟩
  else .ok lcd_array

/-- TimeGateSendGifRequest (the pydantic body model). -/
structure TimeGateSendGifRequest where
  lcd_array : List Int := [1, 1, 1, 1, 1]
  pic_num : Int
  pic_width : Option Int := none
  pic_offset : Int
  pic_id : Int
  pic_speed : Int
  pic_data : String
deriving DecidableEq

/-- The pydantic Field constraints of TimeGateSendGifRequest: pic_num 1..60,
pic_offset ge 0, pic_id ge 1, pic_speed ge 1.  pic_width and lcd_array carry
no Field constraint. -/
def TimeGateSendGifRequest.modelValid (r : TimeGateSendGifRequest) : Prop :=
  1 ≤ r.pic_num ∧ r.pic_num ≤ 60 ∧ 0 ≤ r.pic_offset ∧ 1 ≤ r.pic_id ∧ 1 ≤ r.pic_speed

instance (r : TimeGateSendGifRequest) : Decidable r.modelValid := by
  unfold TimeGateSendGifRequest.modelValid
  infer_instance

/-- TimeGatePlayGifRequest (the pydantic body model). -/
structure TimeGatePlayGifRequest where
  lcd_array : List Int := [1, 1, 1, 1, 1]
  file_name : List String
deriving DecidableEq

/-- The dict built by the send_gif handler. -/
structure SendGifPayload where
  Command : String
  LcdArray : List Int
  PicNum : Int
  PicWidth : Int
  PicOffset : Int
  PicID : Int
  PicSpeed : Int
  PicData : String
deriving DecidableEq

/-- The dict built by the play_gif handler. -/
structure PlayGifPayload where
  Command : String
  LcdArray : List Int
  FileName : List String
deriving DecidableEq

/-- The single outbound HTTP POST performed by _post_command: body posted to
http://host/post.  A handler result of this shape is exactly "an outbound
network call is made"; an error result means no call happened. -/
structure Post (α : Type) where
  host : String
  body : α
deriving DecidableEq

/-- Python `value or default` on an optional int: None and 0 are falsy. -/
def pyOrInt (v : Option Int) (d : Int) : Int :=
  match v with
  | none => d
  | some n => if n = 0 then d else n

/-- The send_gif handler body from pixoo_rest_timegate.py, with the device
already resolved: validate the lcd array, default the width, build the
payload for _post_command. -/
def send_gif (request : TimeGateSendGifRequest) (device : DeviceContext) :
    Except HttpError (Post SendGifPayload) :=
  match validate_lcd_array request.lcd_array with
  | .error e => .error e
  | .ok lcd_array =>
    let pic_width := pyOrInt request.pic_width device.screen_size
    .ok { host := device.host
          body := { Command := "Draw/SendHttpGif"
                    LcdArray := lcd_array
                    PicNum := request.pic_num
                    PicWidth := pic_width
                    PicOffset := request.pic_offset
                    PicID := request.pic_id
                    PicSpeed := request.pic_speed
                    PicData := request.pic_data } }

/-- The play_gif handler body from pixoo_rest_timegate.py. -/
def play_gif (request : TimeGatePlayGifRequest) (device : DeviceContext) :
    Except HttpError (Post PlayGifPayload) :=
  match validate_lcd_array request.lcd_array with
  | .error e => .error e
  | .ok lcd_array =>
    .ok { host := device.host
          body := { Command := "Device/PlayGif"
                    LcdArray := lcd_array
                    FileName := request.file_name } }

/-- The routed /timegate/send-gif endpoint: the Depends selector runs first,
then the handler body. -/
def send_gif_endpoint (reg : Option DeviceRegistry)
    (device host x_pixoo_device x_pixoo_host : Option String)
    (request : TimeGateSendGifRequest) : Except HttpError (Post SendGifPayload) :=
  match select_timegate_device reg device host x_pixoo_device x_pixoo_host with
  | .error e => .error e
  | .ok d => send_gif request d

/-- The routed /timegate/play-gif endpoint. -/
def play_gif_endpoint (reg : Option DeviceRegistry)
    (device host x_pixoo_device x_pixoo_host : Option String)
    (request : TimeGatePlayGifRequest) : Except HttpError (Post PlayGifPayload) :=
  match select_timegate_device reg device host x_pixoo_device x_pixoo_host with
  | .error e => .error e
  | .ok d => play_gif request d

/-- Modelled from the spec: the device-selection contract claimed for every
routed endpoint, the pixoo ones included — alias and host each taken from
the query parameter or, if that is absent, from the X-Pixoo-Device /
X-Pixoo-Host header (query parameter winning), then resolved and gated on
the pixoo type and session exactly as get_pixoo_for_request gates them.
The code's get_pixoo_for_request takes no header arguments at all; this
definition exists to be compared with it. -/
def get_pixoo_claimed (reg : Option DeviceRegistry)
    (device host x_pixoo_device x_pixoo_host : Option String) :
    Except HttpError PixooSession :=
  get_pixoo_for_request reg (pyOrOptStr device x_pixoo_device) (pyOrOptStr host x_pixoo_host)

/-- A raw configuration entry is well formed when it is a dict carrying a
host that is non-empty after the str-and-strip conversion (the claims call
these the kept entries; all others are silently dropped). -/
def wellFormedEntry : Json → Bool
  | .obj fields => entryHost fields != ""
  | _ => false

/-- The trimmed host a well-formed entry contributes. -/
def entryHostOf : Json → String
  | .obj fields => entryHost fields
  | _ => ""

/-- Whether an entry's device_type value cannot raise inside
normalize_device_type: it is a string, or it is falsy (absent, None, False,
0, empty containers).  A truthy non-string raises AttributeError. -/
def entryTypeOk : Json → Bool
  | .obj fields =>
    match Json.get fields "device_type" with
    | .str _ => true
    | v => !v.truthy
  | _ => true

/-- Fixture: scalar defaults used by the concrete counterexamples. -/
def stEx : Settings :=
  { pixoo_host := "10.0.0.9"
    pixoo_screen_size := 64
    pixoo_debug := false
    pixoo_test_connection_retries := 3 }

/-- Fixture: a configured device list whose two keys differ only in case. -/
def rawsCase : List Json :=
  [.obj [("host", .str "h1"), ("key", .str "Wall")],
   .obj [("host", .str "h2"), ("key", .str "wall")]]

/-- Fixture: the first device loaded from rawsCase. -/
def devWallUpper : DeviceContext :=
  { key := "Wall"
    host := "h1"
    device_type := "pixoo"
    screen_size := 64
    debug := false
    connection_retries := 3 }

/-- Fixture: the second device loaded from rawsCase. -/
def devWallLower : DeviceContext :=
  { key := "wall"
    host := "h2"
    device_type := "pixoo"
    screen_size := 64
    debug := false
    connection_retries := 3 }

/-- Fixture: two probed pixoo devices for the header-fallback counterexample. -/
def devA : DeviceContext :=
  { key := "a"
    host := "10.0.0.1"
    device_type := "pixoo"
    screen_size := 64
    debug := false
    connection_retries := 3
    pixoo := some { host := "10.0.0.1", size := 64, debug := false } }

/-- Fixture: second probed pixoo device, selectable only via its alias. -/
def devB : DeviceContext :=
  { key := "b"
    host := "10.0.0.2"
    device_type := "pixoo"
    screen_size := 64
    debug := false
    connection_retries := 3
    pixoo := some { host := "10.0.0.2", size := 64, debug := false } }

/-- Fixture: the registry holding devA and devB. -/
def regAB : DeviceRegistry :=
  { devices := [devA, devB] }

/-- Fixture: a configured Time Gate device. -/
def devTG : DeviceContext :=
  { key := "gate"
    host := "10.0.0.3"
    device_type := "time_gate"
    screen_size := 128
    debug := false
    connection_retries := 3 }

/-- Fixture: a registry holding one pixoo and one Time Gate device. -/
def regMixed : DeviceRegistry :=
  { devices := [devA, devTG] }

/-- Fixture: three entries sharing the key k, to exercise the suffix dedup. -/
def rawsSuffix : List Json :=
  [.obj [("host", .str "a"), ("key", .str "k")],
   .obj [("host", .str "b"), ("key", .str "k")],
   .obj [("host", .str "c"), ("key", .str "k")]]

/-- Fixture: a well-formed entry whose device_type is a truthy non-string. -/
def rawCrash : Json :=
  .obj [("host", .str "h"), ("device_type", .int 5)]

/-- Fixture: a send-gif request with a 3-element lcd_array. -/
def reqBadGif : TimeGateSendGifRequest :=
  { lcd_array := [1, 1, 1]
    pic_num := 1
    pic_offset := 0
    pic_id := 1
    pic_speed := 100
    pic_data := "AAAA" }

/-- Fixture: a play-gif request with a non-binary lcd_array element. -/
def reqBadPlay : TimeGatePlayGifRequest :=
  { lcd_array := [0, 2, 1, 1, 0]
    file_name := ["http://x/gif"] }

/-- Fixture: a valid send-gif request leaving pic_width unset. -/
def reqGifOk : TimeGateSendGifRequest :=
  { lcd_array := [1, 1, 1, 1, 1]
    pic_num := 4
    pic_offset := 0
    pic_id := 1
    pic_speed := 100
    pic_data := "AAAA" }

/-- Decimal value accumulated left to right over a digit string (used to
invert Nat.repr). -/
def valFold (a : Nat) (cs : List Char) : Nat :=
  cs.foldl (fun x c => 10 * x + (c.toNat - 48)) a

/-! ## Helper lemmas: Nat.repr is injective, so the suffixed candidate keys
are pairwise distinct and the bounded suffix search always finds a free
candidate. -/

theorem valFold_append (a : Nat) (xs ys : List Char) :
    valFold a (xs ++ ys) = valFold (valFold a xs) ys :=
  List.foldl_append _ _ _ _

theorem valFold_singleton (a : Nat) (c : Char) :
    valFold a [c] = 10 * a + (c.toNat - 48) :=
  rfl

theorem toDigitsCore_append (fuel : Nat) : ∀ (n : Nat) (ds : List Char),
    Nat.toDigitsCore 10 fuel n ds = Nat.toDigitsCore 10 fuel n [] ++ ds := by
  induction fuel with
  | zero => intro n ds; simp [Nat.toDigitsCore]
  | succ f ih =>
    intro n ds
    simp only [Nat.toDigitsCore]
    by_cases h : n / 10 = 0
    · simp [h]
    · simp only [h, if_false]
      rw [ih (n / 10) (Nat.digitChar (n % 10) :: ds), ih (n / 10) [Nat.digitChar (n % 10)]]
      simp

theorem digitChar_toNat : ∀ d : Nat, d < 10 → (Nat.digitChar d).toNat = 48 + d := by
  decide

theorem valFold_toDigitsCore (fuel : Nat) : ∀ n a, n < fuel →
    valFold a (Nat.toDigitsCore 10 fuel n []) =
      a * 10 ^ (Nat.toDigitsCore 10 fuel n []).length + n := by
  induction fuel with
  | zero => intro n a h; omega
  | succ f ih =>
    intro n a h
    simp only [Nat.toDigitsCore]
    by_cases h0 : n / 10 = 0
    · have hn : n < 10 := by omega
      simp only [h0, if_true, valFold_singleton, List.length]
      rw [digitChar_toNat (n % 10) (by omega)]
      simp [pow_one]
      omega
    · simp only [h0, if_false]
      rw [toDigitsCore_append f (n / 10) [Nat.digitChar (n % 10)]]
      rw [valFold_append]
      have hlt : n / 10 < f := by omega
      rw [ih (n / 10) a hlt]
      rw [valFold_singleton]
      rw [digitChar_toNat (n % 10) (by omega)]
      rw [List.length_append]
      simp [pow_succ]
      ring_nf
      omega

theorem natRepr_injective : Function.Injective Nat.repr := by
  intro m n h
  have hdata : Nat.toDigitsCore 10 (m + 1) m [] = Nat.toDigitsCore 10 (n + 1) n [] := by
    have h2 := congrArg String.data h
    simpa [Nat.repr, Nat.toDigits, List.asString] using h2
  have h1 := valFold_toDigitsCore (m + 1) m 0 (Nat.lt_succ_self m)
  have h2 := valFold_toDigitsCore (n + 1) n 0 (Nat.lt_succ_self n)
  rw [hdata] at h1
  omega

theorem candKey_injective (key : String) : Function.Injective (candKey key) := by
  intro a b h
  have hd := congrArg String.data h
  simp only [candKey, String.data_append] at hd
  have := List.append_cancel_left hd
  exact natRepr_injective (String.ext this)

theorem findSuffix_spec (key : String) (existing : List String) :
    ∀ (fuel suffix : Nat), (∃ n, suffix ≤ n ∧ n < suffix + fuel ∧ candKey key n ∉ existing) →
      candKey key (findSuffix key existing suffix fuel) ∉ existing ∧
      suffix ≤ findSuffix key existing suffix fuel ∧
      (∀ t, suffix ≤ t → t < findSuffix key existing suffix fuel → candKey key t ∈ existing) := by
  intro fuel
  induction fuel with
  | zero =>
    intro suffix h
    obtain ⟨n, h1, h2, _⟩ := h
    omega
  | succ f ih =>
    intro suffix h
    obtain ⟨n, h1, h2, h3⟩ := h
    simp only [findSuffix]
    by_cases hmem : candKey key suffix ∈ existing
    · simp only [hmem, if_true]
      have hne : n ≠ suffix := by
        intro he
        exact h3 (he ▸ hmem)
      obtain ⟨r1, r2, r3⟩ := ih (suffix + 1) ⟨n, by omega, by omega, h3⟩
      refine ⟨r1, by omega, ?_⟩
      intro t ht1 ht2
      by_cases hts : t = suffix
      · exact hts ▸ hmem
      · exact r3 t (by omega) ht2
    · rw [if_neg hmem]
      exact ⟨hmem, Nat.le_refl _, fun t ht1 ht2 => absurd ht2 (by omega)⟩

theorem exists_free_candidate (key : String) (existing : List String) :
    ∃ n, 2 ≤ n ∧ n < 2 + (existing.length + 1) ∧ candKey key n ∉ existing := by
  by_contra hc
  push_neg at hc
  have hsub : ((List.range' 2 (existing.length + 1)).map (candKey key)) ⊆ existing := by
    intro x hx
    simp only [List.mem_map, List.mem_range'] at hx
    obtain ⟨m, ⟨i, hi, rfl⟩, rfl⟩ := hx
    exact hc _ (by omega) (by omega)
  have hnodup : ((List.range' 2 (existing.length + 1)).map (candKey key)).Nodup :=
    (List.nodup_range' 2 (existing.length + 1)).map (candKey_injective key)
  have hle := (List.subperm_of_subset hnodup hsub).length_le
  simp only [List.length_map, List.length_range'] at hle
  omega

theorem ensure_unique_key_fst_not_mem (key : String) (existing : List String) :
    (ensure_unique_key key existing).1 ∉ existing := by
  unfold ensure_unique_key
  by_cases h : key ∈ existing
  · simp only [h, if_true]
    obtain ⟨n, h1, h2, h3⟩ := exists_free_candidate key existing
    exact (findSuffix_spec key existing (existing.length + 1) 2 ⟨n, h1, h2, h3⟩).1
  · rw [if_neg h]
    exact h

theorem ensure_unique_key_snd (key : String) (existing : List String) :
    (ensure_unique_key key existing).2 = (ensure_unique_key key existing).1 :: existing := by
  unfold ensure_unique_key
  by_cases h : key ∈ existing <;> simp [h]

theorem ensure_unique_key_keep (key : String) (existing : List String)
    (h : key ∉ existing) : (ensure_unique_key key existing).1 = key := by
  unfold ensure_unique_key
  simp [h]

theorem ensure_unique_key_mem_spec (key : String) (existing : List String)
    (h : key ∈ existing) :
    ∃ s, 2 ≤ s ∧ (ensure_unique_key key existing).1 = candKey key s ∧
      candKey key s ∉ existing ∧ ∀ t, 2 ≤ t → t < s → candKey key t ∈ existing := by
  obtain ⟨n, h1, h2, h3⟩ := exists_free_candidate key existing
  obtain ⟨r1, r2, r3⟩ := findSuffix_spec key existing (existing.length + 1) 2 ⟨n, h1, h2, h3⟩
  refine ⟨findSuffix key existing 2 (existing.length + 1), r2, ?_, r1, r3⟩
  unfold ensure_unique_key
  simp [h]

/-! ## Helper lemmas about the loader loop. -/

theorem entryTypeOk_norm (v : Json) (h : (match v with | .str _ => true | w => !w.truthy) = true) :
    ∃ s, normalize_device_type_json v = .ok s := by
  unfold normalize_device_type_json
  match v, h with
  | .str s, _ =>
    by_cases ht : (Json.str s).truthy
    · simp [ht]
    · simp [ht]
  | .null, h | .bool _, h | .int _, h | .arr _, h | .obj _, h =>
    simp only [Bool.not_eq_true'] at h
    simp [h]

theorem load_loop_keys (st : Settings) : ∀ (raws : List Json) (used : List String)
    (devs : List DeviceContext), load_devices_loop st raws used = .ok devs →
    (∀ k ∈ devs.map (fun d => d.key), k ∉ used) ∧ (devs.map (fun d => d.key)).Nodup := by
  intro raws
  induction raws with
  | nil =>
    intro used devs h
    simp only [load_devices_loop] at h
    cases h
    simp
  | cons raw rest ih =>
    intro used devs h
    match raw with
    | .null | .bool _ | .int _ | .str _ | .arr _ =>
      exact ih used devs h
    | .obj fields =>
      simp only [load_devices_loop] at h
      by_cases hh : entryHost fields = ""
      · rw [if_pos hh] at h
        exact ih used devs h
      · rw [if_neg hh] at h
        rcases hu : ensure_unique_key (entryKey fields) used with ⟨key, used'⟩
        rw [hu] at h
        have hkey : key = (ensure_unique_key (entryKey fields) used).1 := by rw [hu]
        have hused : used' = key :: used := by
          have := ensure_unique_key_snd (entryKey fields) used
          rw [hu] at this
          simpa using this
        rcases hnorm : normalize_device_type_json (Json.get fields "device_type") with e | dt
        · rw [hnorm] at h
          cases h
        · rw [hnorm] at h
          rcases hrest : load_devices_loop st rest used' with e | devs'
          · rw [hrest] at h
            cases h
          · rw [hrest] at h
            cases h
            obtain ⟨ih1, ih2⟩ := ih used' devs' hrest
            have hknotused : key ∉ used := by
              rw [hkey]
              exact ensure_unique_key_fst_not_mem (entryKey fields) used
            constructor
            · intro k hk
              simp only [List.map_cons, List.mem_cons] at hk
              rcases hk with rfl | hk
              · exact hknotused
              · intro hku
                exact ih1 k hk (hused ▸ List.mem_cons_of_mem key hku)
            · simp only [List.map_cons, List.nodup_cons]
              refine ⟨?_, ih2⟩
              intro hmem
              have := ih1 key hmem
              rw [hused] at this
              exact this (List.mem_cons_self key used)

theorem load_loop_shape (st : Settings) : ∀ (raws : List Json) (used : List String),
    (∀ j ∈ raws, wellFormedEntry j → entryTypeOk j) →
    ∃ devs, load_devices_loop st raws used = .ok devs ∧
      devs.length = (raws.filter wellFormedEntry).length ∧
      devs.map (fun d => d.host) = (raws.filter wellFormedEntry).map entryHostOf := by
  intro raws
  induction raws with
  | nil =>
    intro used _
    exact ⟨[], rfl, rfl, rfl⟩
  | cons raw rest ih =>
    intro used hok
    have hokRest : ∀ j ∈ rest, wellFormedEntry j → entryTypeOk j := by
      intro j hj
      exact hok j (List.mem_cons_of_mem raw hj)
    match raw with
    | .null | .bool _ | .int _ | .str _ | .arr _ =>
      obtain ⟨devs, h1, h2, h3⟩ := ih used hokRest
      exact ⟨devs, h1, by simpa [wellFormedEntry, List.filter] using h2,
        by simpa [wellFormedEntry, List.filter] using h3⟩
    | .obj fields =>
      by_cases hh : entryHost fields = ""
      · obtain ⟨devs, h1, h2, h3⟩ := ih used hokRest
        refine ⟨devs, ?_, ?_, ?_⟩
        · simp only [load_devices_loop]
          rw [if_pos hh]
          exact h1
        · simpa [List.filter, wellFormedEntry, hh] using h2
        · simpa [List.filter, wellFormedEntry, hh] using h3
      · have hwf : wellFormedEntry (.obj fields) = true := by
          simp [wellFormedEntry, hh]
        have htok := hok (.obj fields) (List.mem_cons_self _ _) hwf
        simp only [entryTypeOk] at htok
        obtain ⟨dt, hdt⟩ := entryTypeOk_norm (Json.get fields "device_type") htok
        rcases hu : ensure_unique_key (entryKey fields) used with ⟨key, used'⟩
        obtain ⟨devs', h1, h2, h3⟩ := ih used' hokRest
        refine ⟨{ key := key
                  host := entryHost fields
                  device_type := dt
                  screen_size := coerce_int (Json.get fields "screen_size") st.pixoo_screen_size
                  debug := coerce_bool (Json.get fields "debug") st.pixoo_debug
                  connection_retries :=
                    coerce_int (Json.get fields "connection_retries") st.pixoo_test_connection_retries
                  name := entryName fields } :: devs', ?_, ?_, ?_⟩
        · simp only [load_devices_loop]
          rw [if_neg hh, hu, hdt, h1]
        · simp [List.filter_cons_of_pos hwf, h2]
        · simp [List.filter_cons_of_pos hwf, h3, entryHostOf]

/-! ## Validation helper lemmas. -/

theorem validate_lcd_array_error (l : List Int)
    (h : l.length ≠ 5 ∨ ∃ v ∈ l, v ≠ 0 ∧ v ≠ 1) :
    ∃ e, validate_lcd_array l = .error e ∧ e.status = 422 := by
  unfold validate_lcd_array
  by_cases h5 : l.length = 5
  · have hbad : ∃ v ∈ l, v ≠ 0 ∧ v ≠ 1 := by
      rcases h with h | h
      · exact absurd h5 h
      · exact h
    have hlen : (l.length != 5) = false := by simp [h5]
    have hany : (l.any fun v => v != 0 && v != 1) = true := by
      obtain ⟨v, hv, h0, h1⟩ := hbad
      exact List.any_eq_true.mpr ⟨v, hv, by simp [h0, h1]⟩
    rw [hlen]
    simp only [Bool.false_eq_true, if_false, hany, if_true]
    exact ⟨_, rfl, rfl⟩
  · have hlen : (l.length != 5) = true := by simp [h5]
    rw [hlen]
    simp only [if_true]
    exact ⟨_, rfl, rfl⟩

theorem validate_lcd_array_ok (l : List Int) (h5 : l.length = 5)
    (hb : ∀ v ∈ l, v = 0 ∨ v = 1) : validate_lcd_array l = .ok l := by
  unfold validate_lcd_array
  have hlen : (l.length != 5) = false := by simp [h5]
  have hany : (l.any fun v => v != 0 && v != 1) = false := by
    rw [List.any_eq_false]
    intro v hv
    rcases hb v hv with rfl | rfl <;> decide
  rw [hlen]
  simp only [Bool.false_eq_true, if_false, hany]

/-! ## Claim theorems. -/

/-- C6: normalize_device_type is total (every str-or-None input lands in the
set pixoo, time_gate, auto) and idempotent, with timegate and time_gate
spellings sent to time_gate, auto to auto and everything else to pixoo
(after lower-casing, trimming and hyphen/space-to-underscore mapping),
witnessed on representative spellings. -/
theorem c6_normalize_total_idempotent :
    (∀ v : Option String,
      (normalize_device_type v = "pixoo" ∨ normalize_device_type v = "time_gate" ∨
        normalize_device_type v = "auto") ∧
      normalize_device_type (some (normalize_device_type v)) = normalize_device_type v) ∧
    normalize_device_type none = "pixoo" ∧
    normalize_device_type (some "timegate") = "time_gate" ∧
    normalize_device_type (some " Time-Gate ") = "time_gate" ∧
    normalize_device_type (some "time gate") = "time_gate" ∧
    normalize_device_type (some "AUTO") = "auto" ∧
    normalize_device_type (some "") = "pixoo" ∧
    normalize_device_type (some "anything else") = "pixoo" := by
  have hcases : ∀ v : Option String,
      normalize_device_type v = "pixoo" ∨ normalize_device_type v = "time_gate" ∨
        normalize_device_type v = "auto" := by
    intro v
    unfold normalize_device_type
    dsimp only
    split_ifs <;>
      first
        | exact Or.inl rfl
        | exact Or.inr (Or.inl rfl)
        | exact Or.inr (Or.inr rfl)
  refine ⟨fun v => ⟨hcases v, ?_⟩, by decide, by decide, by decide, by decide, by decide,
    by decide, by decide⟩
  rcases hcases v with h | h | h <;> rw [h] <;> decide

/-- C8 counterexample: a malformed boolean string does NOT fall back to the
process-wide default — coerce_bool of the unrecognized string "garbage"
with default True yields False, not the default True the claim requires. -/
theorem c8_cex_malformed_bool_ignores_default :
    coerce_bool (Json.str "garbage") true = false ∧ (false : Bool) ≠ true := by
  decide

/-- C8 amended: coercing screen_size, connection_retries and debug never
raises — int(value) can only raise TypeError or ValueError and coerce_int
catches exactly those, substituting the default, while coerce_bool is total;
the default is used for the integer fields whenever the value is absent or
malformed, but for debug the default is consulted only when the value is
absent (None): any non-None value determines the result independently of
the default, a malformed string yielding False. -/
theorem c8_coercions_never_raise_default_on_failure :
    (∀ (v : Json) (e : PyError), int_of v = .error e → e = .typeError ∨ e = .valueError) ∧
    (∀ (v : Json) (d : Int), (int_of v).isOk = false → coerce_int v d = d) ∧
    (∀ (v : Json) (d n : Int), int_of v = .ok n → coerce_int v d = n) ∧
    (∀ d : Bool, coerce_bool .null d = d) ∧
    (∀ (v : Json) (d e : Bool), v ≠ .null → coerce_bool v d = coerce_bool v e) := by
  refine ⟨?_, ?_, ?_, fun d => rfl, ?_⟩
  · intro v e h
    match v, h with
    | .null, h => cases h; exact Or.inl rfl
    | .str s, h =>
      simp only [int_of] at h
      rcases hp : parsePyInt s with _ | n
      · rw [hp] at h
        cases h
        exact Or.inr rfl
      · rw [hp] at h
        cases h
    | .arr xs, h => cases h; exact Or.inl rfl
    | .obj kvs, h => cases h; exact Or.inl rfl
  · intro v d h
    unfold coerce_int
    rcases hi : int_of v with e | n
    · rfl
    · rw [hi] at h
      cases h
  · intro v d n h
    unfold coerce_int
    rw [h]
  · intro v d e h
    cases v with
    | null => exact absurd rfl h
    | bool b => rfl
    | int n => rfl
    | str s => rfl
    | arr xs => rfl
    | obj kvs => rfl

/-- C8 witness: concrete instances of the amended claim — int coercion of a
malformed string falls back to the default, a parsed value is kept, and a
non-None boolean value is default-independent. -/
theorem c8_witness :
    coerce_int (Json.str "oops") 7 = 7 ∧ coerce_int (Json.str "42") 7 = 42 ∧
    coerce_bool (Json.str "garbage") true = coerce_bool (Json.str "garbage") false := by
  refine ⟨?_, ?_, ?_⟩
  · exact c8_coercions_never_raise_default_on_failure.2.1 (Json.str "oops") 7 (by decide)
  · exact c8_coercions_never_raise_default_on_failure.2.2.1 (Json.str "42") 7 42 (by decide)
  · exact c8_coercions_never_raise_default_on_failure.2.2.2.2 (Json.str "garbage") true false
      (fun hne => Json.noConfusion hne)

/-- C3: an lcd_array whose length is not 5 or containing a value outside 0/1
makes the send-gif and play-gif handler bodies fail with the 422 validation
HTTPException before any outbound Post value is produced (the handlers
return an error instead of a Post, so the HTTP POST to the device is never
reached). -/
theorem c3_lcd_validation_blocks_post :
    ∀ (reqG : TimeGateSendGifRequest) (reqP : TimeGatePlayGifRequest) (device : DeviceContext),
      (reqG.lcd_array.length ≠ 5 ∨ ∃ v ∈ reqG.lcd_array, v ≠ 0 ∧ v ≠ 1) →
      (reqP.lcd_array.length ≠ 5 ∨ ∃ v ∈ reqP.lcd_array, v ≠ 0 ∧ v ≠ 1) →
      (∃ e, send_gif reqG device = .error e ∧ e.status = 422) ∧
      (∃ e, play_gif reqP device = .error e ∧ e.status = 422) := by
  intro reqG reqP device hG hP
  obtain ⟨eG, hvG, hsG⟩ := validate_lcd_array_error reqG.lcd_array hG
  obtain ⟨eP, hvP, hsP⟩ := validate_lcd_array_error reqP.lcd_array hP
  constructor
  · refine ⟨eG, ?_, hsG⟩
    unfold send_gif
    rw [hvG]
  · refine ⟨eP, ?_, hsP⟩
    unfold play_gif
    rw [hvP]

/-- C3 witness: a 3-element lcd_array and a [0,2,1,1,0] lcd_array are both
rejected with a 422 before any Post is built. -/
theorem c3_witness :
    (∃ e, send_gif reqBadGif devA = .error e ∧ e.status = 422) ∧
    (∃ e, play_gif reqBadPlay devTG = .error e ∧ e.status = 422) :=
  c3_lcd_validation_blocks_post reqBadGif reqBadPlay devA
    (by decide)
    (Or.inr ⟨2, by decide, by decide, by decide⟩)

/-- C9: when pic_width is omitted (None), a send-gif request that passes
lcd_array validation dispatches a payload whose PicWidth equals the resolved
device's configured screen size. -/
theorem c9_pic_width_defaults_to_screen_size :
    ∀ (req : TimeGateSendGifRequest) (device : DeviceContext),
      req.pic_width = none →
      req.lcd_array.length = 5 →
      (∀ v ∈ req.lcd_array, v = 0 ∨ v = 1) →
      ∃ call, send_gif req device = .ok call ∧ call.body.PicWidth = device.screen_size := by
  intro req device hw h5 hb
  unfold send_gif
  rw [validate_lcd_array_ok req.lcd_array h5 hb]
  refine ⟨_, rfl, ?_⟩
  simp only [pyOrInt, hw]

/-- C9 witness: the concrete request reqGifOk (pic_width unset) targeted at
devTG dispatches PicWidth equal to devTG's screen size. -/
theorem c9_witness :
    ∃ call, send_gif reqGifOk devTG = .ok call ∧ call.body.PicWidth = devTG.screen_size :=
  c9_pic_width_defaults_to_screen_size reqGifOk devTG rfl (by decide) (by decide)

/-- C10: a supplied pic_width of 0 is falsy under the Python or, so the
payload again carries the device's screen size (a caller can never request
width 0), while any other supplied integer, negatives included, is copied
into the payload verbatim; and the pydantic body model places no range
constraint on pic_width, so every integer passes body validation. -/
theorem c10_pic_width_zero_coerced_others_verbatim :
    ∀ (req : TimeGateSendGifRequest) (device : DeviceContext),
      req.lcd_array.length = 5 →
      (∀ v ∈ req.lcd_array, v = 0 ∨ v = 1) →
      (req.pic_width = some 0 →
        ∃ call, send_gif req device = .ok call ∧ call.body.PicWidth = device.screen_size) ∧
      (∀ n : Int, n ≠ 0 → req.pic_width = some n →
        ∃ call, send_gif req device = .ok call ∧ call.body.PicWidth = n) ∧
      (∀ n : Int, req.modelValid →
        ({ req with pic_width := some n } : TimeGateSendGifRequest).modelValid) := by
  intro req device h5 hb
  refine ⟨?_, ?_, ?_⟩
  · intro hw
    unfold send_gif
    rw [validate_lcd_array_ok req.lcd_array h5 hb]
    refine ⟨_, rfl, ?_⟩
    simp [pyOrInt, hw]
  · intro n hn hw
    unfold send_gif
    rw [validate_lcd_array_ok req.lcd_array h5 hb]
    refine ⟨_, rfl, ?_⟩
    simp only [pyOrInt, hw]
    rw [if_neg hn]
  · intro n hv
    exact hv

/-- C10 witness: with pic_width 0 the payload width is the screen size, with
pic_width -5 the payload width is -5, and the -5 request still satisfies the
body model constraints. -/
theorem c10_witness :
    (∃ call, send_gif { reqGifOk with pic_width := some 0 } devTG = .ok call ∧
      call.body.PicWidth = devTG.screen_size) ∧
    (∃ call, send_gif { reqGifOk with pic_width := some (-5) } devTG = .ok call ∧
      call.body.PicWidth = -5) ∧
    ({ reqGifOk with pic_width := some (-5) } : TimeGateSendGifRequest).modelValid := by
  refine ⟨?_, ?_, ?_⟩
  · exact (c10_pic_width_zero_coerced_others_verbatim
      { reqGifOk with pic_width := some 0 } devTG (by decide) (by decide)).1 rfl
  · exact (c10_pic_width_zero_coerced_others_verbatim
      { reqGifOk with pic_width := some (-5) } devTG (by decide) (by decide)).2.1 (-5)
      (by decide) rfl
  · exact (c10_pic_width_zero_coerced_others_verbatim
      { reqGifOk with pic_width := some (-5) } devTG (by decide) (by decide)).2.2 (-5)
      (by decide)

/-- C7: whenever the Time Gate selector resolves a device whose type is not
time_gate, or get_pixoo_for_request resolves a device whose type is not
pixoo, the request fails with the 400 type-mismatch HTTPException whose
detail names the device's configured type, and the composed endpoint
returns that error instead of producing an outbound Post. -/
theorem c7_type_mismatch_never_forwards :
    (∀ (registry : DeviceRegistry) (qd qh hd hh : Option String) (d : DeviceContext)
        (reqG : TimeGateSendGifRequest),
      registry.select (pyOrOptStr qd hd) (pyOrOptStr qh hh) = some d →
      d.device_type ≠ "time_gate" →
      select_timegate_device (some registry) qd qh hd hh = .error ⟨400, mismatch_detail d⟩ ∧
      send_gif_endpoint (some registry) qd qh hd hh reqG = .error ⟨400, mismatch_detail d⟩) ∧
    (∀ (registry : DeviceRegistry) (qd qh : Option String) (d : DeviceContext),
      registry.select qd qh = some d →
      d.device_type ≠ "pixoo" →
      get_pixoo_for_request (some registry) qd qh = .error ⟨400, mismatch_detail d⟩) ∧
    (∀ d : DeviceContext, ∃ pre : String, mismatch_detail d = pre ++ d.device_type ++ ".") := by
  refine ⟨?_, ?_, fun d => ⟨"Device \x27" ++ d.key ++ "\x27 is configured as ", rfl⟩⟩
  · intro registry qd qh hd hh d reqG hsel hty
    have hbne : (d.device_type != "time_gate") = true := bne_iff_ne.mpr hty
    have hst : select_timegate_device (some registry) qd qh hd hh
        = .error ⟨400, mismatch_detail d⟩ := by
      simp only [select_timegate_device]
      rw [hsel]
      simp only [hbne, if_true]
    refine ⟨hst, ?_⟩
    unfold send_gif_endpoint
    rw [hst]
  · intro registry qd qh d hsel hty
    have hbne : (d.device_type != "pixoo") = true := bne_iff_ne.mpr hty
    unfold get_pixoo_for_request resolve_device_selector
    dsimp only
    rw [hsel]
    simp only [hbne, if_true]

/-- C7 witness: querying the Time Gate selector for the pixoo device a fails
with the 400 mismatch naming pixoo and the send-gif endpoint forwards
nothing; querying the pixoo resolver for the Time Gate device gate fails
with the 400 mismatch naming time_gate. -/
theorem c7_witness :
    select_timegate_device (some regMixed) (some "a") none none none
      = .error ⟨400, mismatch_detail devA⟩ ∧
    send_gif_endpoint (some regMixed) (some "a") none none none reqGifOk
      = .error ⟨400, mismatch_detail devA⟩ ∧
    get_pixoo_for_request (some regMixed) (some "gate") none
      = .error ⟨400, mismatch_detail devTG⟩ := by
  obtain ⟨h1, h2⟩ := c7_type_mismatch_never_forwards.1 regMixed (some "a") none none none devA
    reqGifOk (by decide) (by decide)
  exact ⟨h1, h2, c7_type_mismatch_never_forwards.2.1 regMixed (some "gate") none devTG
    (by decide) (by decide)⟩

/-- C2 counterexample: with no query parameters and the header
X-Pixoo-Device set to b, the claimed selection contract resolves the pixoo
request to device b, but get_pixoo_for_request (which takes no header
arguments at all) resolves it to the default device a — so the pixoo
endpoints do not accept the alias from the request headers. -/
theorem c2_cex_pixoo_endpoint_ignores_header :
    get_pixoo_for_request (some regAB) none none
      = .ok { host := "10.0.0.1", size := 64, debug := false } ∧
    get_pixoo_claimed (some regAB) none none (some "b") none
      = .ok { host := "10.0.0.2", size := 64, debug := false } ∧
    ({ host := "10.0.0.1", size := 64, debug := false } : PixooSession)
      ≠ { host := "10.0.0.2", size := 64, debug := false } := by
  decide

/-- C2 amended: the query-or-header selection with query-parameter
precedence holds on the /timegate endpoints (their selector behaves exactly
as if the merged query-or-header values had been passed as query
parameters), while the pixoo endpoints consult only the query parameters:
get_pixoo_for_request coincides with the claimed contract precisely when no
header is supplied. -/
theorem c2_amended_header_fallback_timegate_only :
    (∀ (reg : Option DeviceRegistry) (qd qh hd hh : Option String),
      select_timegate_device reg qd qh hd hh =
        select_timegate_device reg (pyOrOptStr qd hd) (pyOrOptStr qh hh) none none) ∧
    (∀ (reg : Option DeviceRegistry) (qd qh : Option String),
      get_pixoo_for_request reg qd qh = get_pixoo_claimed reg qd qh none none) := by
  have hsel : ∀ (registry : DeviceRegistry) (a b : Option String),
      registry.select (pyOrOptStr a none) (pyOrOptStr b none) = registry.select a b := by
    intro registry a b
    have hnone : strTruthy none = false := rfl
    by_cases ha : strTruthy a <;> by_cases hb : strTruthy b <;>
      simp [DeviceRegistry.select, pyOrOptStr, ha, hb, hnone]
  constructor
  · intro reg qd qh hd hh
    match reg with
    | none => rfl
    | some registry =>
      simp only [select_timegate_device]
      rw [hsel registry (pyOrOptStr qd hd) (pyOrOptStr qh hh)]
  · intro reg qd qh
    match reg with
    | none => rfl
    | some registry =>
      unfold get_pixoo_claimed
      simp only [get_pixoo_for_request, resolve_device_selector]
      rw [hsel registry qd qh]

/-- C1 counterexample: the loader keeps both Wall and wall (its dedup
compares keys case-sensitively), so the registry holds two keys that differ
only in letter case, and lower-cased key lookup of Wall returns the LAST of
them — the first device is unreachable by key. -/
theorem c1_cex_case_colliding_keys :
    load_devices_from_list stEx rawsCase = .ok [devWallUpper, devWallLower] ∧
    pyLower devWallUpper.key = pyLower devWallLower.key ∧
    devWallUpper.key ≠ devWallLower.key ∧
    (DeviceRegistry.mk [devWallUpper, devWallLower]).select (some "Wall") none
      = some devWallLower ∧
    devWallLower ≠ devWallUpper := by
  decide

/-- C1 amended: the keys of every successfully loaded device list are
pairwise distinct under case-SENSITIVE comparison (ensure_unique_key only
suffixes exact duplicates); keys differing only in letter case are all
loaded, and the lower-cased-key lookup dict then keeps only the last. -/
theorem c1_amended_keys_nodup_case_sensitive :
    ∀ (st : Settings) (raws : List Json) (devs : List DeviceContext),
      load_devices_from_list st raws = .ok devs →
      (devs.map (fun d => d.key)).Nodup := by
  intro st raws devs h
  exact (load_loop_keys st raws [] devs h).2

/-- C1 witness: the rawsCase list loads with pairwise (case-sensitively)
distinct keys. -/
theorem c1_witness :
    (([devWallUpper, devWallLower] : List DeviceContext).map (fun d => d.key)).Nodup :=
  c1_amended_keys_nodup_case_sensitive stEx rawsCase [devWallUpper, devWallLower] (by decide)

/-- C5 counterexample: rawCrash is well formed in the claim's sense (a dict
with non-empty trimmed host), yet the loader produces no seed list at all
for [rawCrash] — it raises AttributeError out of normalize_device_type
because the entry's device_type is the truthy non-string 5. -/
theorem c5_cex_wellformed_entry_crashes :
    wellFormedEntry rawCrash = true ∧
    load_devices_from_list stEx [rawCrash] = .error .attributeError := by
  decide

/-- C5 amended: for every configuration list all of whose well-formed
entries carry a string or falsy device_type, the loader returns exactly one
seed per well-formed entry, in input order (their hosts are the hosts of
the well-formed entries in order), with pairwise-distinct keys; dropped
entries are exactly the non-dict or empty-host ones, and a colliding key is
replaced by the first free suffixed candidate key-2, key-3, ... in
first-seen order. -/
theorem c5_amended_loader_shape :
    (∀ (st : Settings) (raws : List Json),
      (∀ j ∈ raws, wellFormedEntry j → entryTypeOk j) →
      ∃ devs, load_devices_from_list st raws = .ok devs ∧
        devs.length = (raws.filter wellFormedEntry).length ∧
        devs.map (fun d => d.host) = (raws.filter wellFormedEntry).map entryHostOf ∧
        (devs.map (fun d => d.key)).Nodup) ∧
    (∀ (k : String) (used : List String), k ∉ used → (ensure_unique_key k used).1 = k) ∧
    (∀ (k : String) (used : List String), k ∈ used →
      ∃ s, 2 ≤ s ∧ (ensure_unique_key k used).1 = candKey k s ∧ candKey k s ∉ used ∧
        ∀ t, 2 ≤ t → t < s → candKey k t ∈ used) := by
  refine ⟨?_, ensure_unique_key_keep, ensure_unique_key_mem_spec⟩
  intro st raws hok
  obtain ⟨devs, h1, h2, h3⟩ := load_loop_shape st raws [] hok
  exact ⟨devs, h1, h2, h3, (load_loop_keys st raws [] devs h1).2⟩

/-- C5 witness: three entries sharing key k load to exactly three seeds and
the dedup yields the suffixed keys. -/
theorem c5_witness :
    (∃ devs, load_devices_from_list stEx rawsSuffix = .ok devs ∧ devs.length = 3) ∧
    (ensure_unique_key "k" ["k"]).1 = candKey "k" 2 := by
  constructor
  · obtain ⟨devs, h1, h2, _⟩ := c5_amended_loader_shape.1 stEx rawsSuffix (by decide)
    refine ⟨devs, h1, ?_⟩
    rw [h2]
    decide
  · obtain ⟨s, hs2, heq, hfree, hmin⟩ := c5_amended_loader_shape.2.2 "k" ["k"] (by decide)
    have hs : s = 2 := by
      by_contra hne
      have h2s : 2 < s := by omega
      have := hmin 2 (by omega) h2s
      revert this
      decide
    rw [heq, hs]

/-- C4 counterexample: a present environment value that parses to a valid
JSON array nevertheless makes the loader raise — the array's single entry
has host h and device_type 5, and the uncaught AttributeError escapes
load_devices_from_env, so the loader aborts in a case outside the claimed
invalid-JSON-or-not-an-array condition instead of loading or falling back. -/
theorem c4_cex_valid_array_still_raises :
    Json.isArr (.arr [rawCrash]) = true ∧
    load_devices_from_env (some (some (.arr [rawCrash]))) stEx none
      = .error (.py .attributeError) := by
  decide

/-- C4 amended: the loader raises its configuration RuntimeError exactly
when the structured value is present but unparseable or parses to a
non-array; an absent or blank value, and a parsed array whose entries yield
zero devices, fall back to exactly the single scalar-defaults device; but a
parsed array on which entry processing raises a Python exception (a kept
entry with a truthy non-string device_type) propagates that exception
instead of loading or falling back. -/
theorem c4_amended_fatal_config_error_iff :
    ∀ (parsed : Option (Option Json)) (st : Settings) (edt : Option String),
      ((∃ msg, load_devices_from_env parsed st edt = .error (.runtime msg)) ↔
        (parsed = some none ∨ ∃ j, parsed = some (some j) ∧ j.isArr = false)) ∧
      (parsed = none → load_devices_from_env parsed st edt = .ok [fallback_device st edt]) ∧
      (∀ xs, parsed = some (some (.arr xs)) → load_devices_from_list st xs = .ok [] →
        load_devices_from_env parsed st edt = .ok [fallback_device st edt]) ∧
      (∀ xs e, parsed = some (some (.arr xs)) → load_devices_from_list st xs = .error e →
        load_devices_from_env parsed st edt = .error (.py e)) := by
  intro parsed st edt
  refine ⟨⟨?_, ?_⟩, ?_, ?_, ?_⟩
  · intro h
    obtain ⟨msg, hmsg⟩ := h
    match parsed, hmsg with
    | some none, _ => exact Or.inl rfl
    | some (some j), hmsg =>
      refine Or.inr ⟨j, rfl, ?_⟩
      match j, hmsg with
      | .null, _ | .bool _, _ | .int _, _ | .str _, _ | .obj _, _ => rfl
      | .arr xs, hmsg =>
        exfalso
        simp only [load_devices_from_env] at hmsg
        rcases hl : load_devices_from_list st xs with e | devs
        · rw [hl] at hmsg
          simp at hmsg
        · rw [hl] at hmsg
          by_cases hd : devs.isEmpty <;> simp [hd] at hmsg
  · intro h
    rcases h with rfl | ⟨j, rfl, hj⟩
    · exact ⟨_, rfl⟩
    · match j, hj with
      | .null, _ => exact ⟨_, rfl⟩
      | .bool _, _ => exact ⟨_, rfl⟩
      | .int _, _ => exact ⟨_, rfl⟩
      | .str _, _ => exact ⟨_, rfl⟩
      | .obj _, _ => exact ⟨_, rfl⟩
  · intro h
    subst h
    rfl
  · intro xs h hl
    subst h
    simp only [load_devices_from_env]
    rw [hl]
    rfl
  · intro xs e h hl
    subst h
    simp only [load_devices_from_env]
    rw [hl]

/-- C4 witness: an absent value and an empty array both fall back to the
single scalar-defaults device, an unparseable value raises the RuntimeError,
and the crashing array propagates its AttributeError. -/
theorem c4_witness :
    load_devices_from_env none stEx none = .ok [fallback_device stEx none] ∧
    load_devices_from_env (some (some (.arr []))) stEx none
      = .ok [fallback_device stEx none] ∧
    (∃ msg, load_devices_from_env (some none) stEx none = .error (.runtime msg)) ∧
    load_devices_from_env (some (some (.arr [rawCrash]))) stEx none
      = .error (.py .attributeError) := by
  refine ⟨(c4_amended_fatal_config_error_iff none stEx none).2.1 rfl,
    (c4_amended_fatal_config_error_iff (some (some (.arr []))) stEx none).2.2.1 [] rfl rfl,
    (c4_amended_fatal_config_error_iff (some none) stEx none).1.mpr (Or.inl rfl),
    (c4_amended_fatal_config_error_iff (some (some (.arr [rawCrash]))) stEx none).2.2.2
      [rawCrash] .attributeError rfl (by decide)⟩
